import Mathlib

set_option maxRecDepth 8000

/-!
Verification development for the traffic-light task data generator
(src/src/generator.py, src/src/config.py).  The simulator
`_calculate_final_state`, the sampler `_generate_task_data` /
`_select_task_type` and the animation sequencer
`_create_countdown_animation_frames` are embedded shallowly below; all
definitions mirror the Python source line by line.  Countdown values and
elapsed times are Python non-negative ints, embedded as `Nat` (every
subtraction in the source is guarded so no underflow occurs); the light
state strings are embedded as a two-value enum.
-/

namespace TrafficLight

/-- Light colors, mirroring the string states of the generator. -/
inductive LState where
  | red : LState
  | green : LState
deriving DecidableEq, Repr

open LState

/-- A two-light scene: the four fields carried through
`_calculate_final_state` and the renderer. -/
structure Scene where
  light_a_state : LState
  light_a_countdown : Nat
  light_b_state : LState
  light_b_countdown : Nat
deriving DecidableEq, Repr

/-- The steady scene the simulator converges to on sampler data:
light A green, light B red, both countdowns 0. -/
def steadyScene : Scene := ⟨green, 0, red, 0⟩

/-- Total countdown sum of a scene. -/
def sumCd (s : Scene) : Nat := s.light_a_countdown + s.light_b_countdown

/-- The per-iteration step selection of the simulation loop in
`_calculate_final_state`: the number of whole units until the next
countdown reaches zero (0 encodes the `break` when neither light is
counting). -/
def chunkSteps (aCd bCd : Nat) : Nat :=
  if 0 < aCd ∧ 0 < bCd then min aCd bCd
  else if 0 < aCd then aCd
  else if 0 < bCd then bCd
  else 0

/-- Decrement of both active countdowns by `steps`
(`if current_x_countdown > 0: current_x_countdown -= steps`). -/
def decrBoth (s : Scene) (steps : Nat) : Scene :=
  { s with
    light_a_countdown :=
      if 0 < s.light_a_countdown then s.light_a_countdown - steps
      else s.light_a_countdown,
    light_b_countdown :=
      if 0 < s.light_b_countdown then s.light_b_countdown - steps
      else s.light_b_countdown }

/-- The switch check at the end of each loop iteration of
`_calculate_final_state`: first the A-red-at-zero branch, then the
B-green-at-zero branch, otherwise no change. -/
def flipCheck (s : Scene) : Scene :=
  if s.light_a_countdown = 0 ∧ s.light_a_state = red then
    ⟨green, s.light_a_countdown, red,
      if 0 < s.light_b_countdown then 0 else s.light_b_countdown⟩
  else if s.light_b_countdown = 0 ∧ s.light_b_state = green then
    ⟨green, if 0 < s.light_a_countdown then 0 else s.light_a_countdown,
      red, s.light_b_countdown⟩
  else s

/-- The `while time_remaining > 0` loop of `_calculate_final_state`.
Each iteration consumes at least one unit of the remaining budget, so
running the recursion on a fuel equal to the initial budget computes the
exact loop result. -/
def simLoop : Nat → Scene → Nat → Scene
  | 0, s, _ => s
  | fuel+1, s, rem =>
    if rem = 0 then s
    else if chunkSteps s.light_a_countdown s.light_b_countdown = 0 then s
    else
      simLoop fuel
        (flipCheck (decrBoth s
          (min (chunkSteps s.light_a_countdown s.light_b_countdown) rem)))
        (rem - min (chunkSteps s.light_a_countdown s.light_b_countdown) rem)

/-- The horizon `_calculate_final_state` chooses when `time_elapsed` is
`None`. -/
def autoHorizon (s : Scene) : Nat :=
  if 0 < s.light_a_countdown ∧ 0 < s.light_b_countdown then
    min s.light_a_countdown s.light_b_countdown
  else if 0 < s.light_a_countdown then s.light_a_countdown
  else if 0 < s.light_b_countdown then s.light_b_countdown
  else 0

/-- `_calculate_final_state`: resolve the optional elapsed time, then run
the simulation loop. -/
def calculateFinalState (s : Scene) (time_elapsed : Option Nat) : Scene :=
  match time_elapsed with
  | none => simLoop (autoHorizon s) s (autoHorizon s)
  | some e => simLoop e s e

/-- The scene together with the optional explicit elapsed time returned
by `_generate_task_data`. -/
structure TaskData where
  scene : Scene
  time_elapsed : Option Nat

/-- An explicit elapsed value is present and lies in the given inclusive
range. -/
def elapsedInRange : Option Nat → Nat → Nat → Prop
  | some e, lo, hi => lo ≤ e ∧ e ≤ hi
  | none, _, _ => False

instance instDecElapsedInRange : (te : Option Nat) → (lo hi : Nat) →
    Decidable (elapsedInRange te lo hi)
  | some _, _, _ => inferInstanceAs (Decidable (_ ∧ _))
  | none, _, _ => inferInstanceAs (Decidable False)

/-- The possible outputs of `_generate_task_data` for each of the four
task types, with the numeric ranges of the default `TaskConfig`
(countdown_range_type1 = (2, 10), countdown_range_type2 = (8, 20)) and
the literal ranges of types 3 and 4. -/
def validTaskData (taskType : Nat) (td : TaskData) : Prop :=
  if taskType = 1 then
    td.scene.light_a_state = red ∧ td.scene.light_b_state = green ∧
    td.scene.light_b_countdown = 0 ∧
    2 ≤ td.scene.light_a_countdown ∧ td.scene.light_a_countdown ≤ 10 ∧
    td.time_elapsed = none
  else if taskType = 2 then
    td.scene.light_a_state = red ∧ td.scene.light_b_state = green ∧
    td.scene.light_b_countdown = 0 ∧
    8 ≤ td.scene.light_a_countdown ∧ td.scene.light_a_countdown ≤ 20 ∧
    td.time_elapsed = none
  else if taskType = 3 then
    td.scene.light_a_state = red ∧ td.scene.light_b_state = green ∧
    8 ≤ td.scene.light_a_countdown ∧ td.scene.light_a_countdown ≤ 15 ∧
    3 ≤ td.scene.light_b_countdown ∧
    td.scene.light_b_countdown ≤ min 7 (td.scene.light_a_countdown - 1) ∧
    td.time_elapsed = none
  else if taskType = 4 then
    td.scene.light_a_state = red ∧ td.scene.light_b_state = green ∧
    5 ≤ td.scene.light_a_countdown ∧ td.scene.light_a_countdown ≤ 10 ∧
    3 ≤ td.scene.light_b_countdown ∧ td.scene.light_b_countdown ≤ 7 ∧
    elapsedInRange td.time_elapsed
      (max td.scene.light_a_countdown td.scene.light_b_countdown + 2)
      (max td.scene.light_a_countdown td.scene.light_b_countdown + 8)
  else False

instance instDecValidTaskData (taskType : Nat) (td : TaskData) :
    Decidable (validTaskData taskType td) := by
  unfold validTaskData
  repeat first
  | exact inferInstance
  | split

/-- The cumulative scan of `_select_task_type` over the (sorted)
distribution items; probabilities are embedded as rationals.  The final
`1` is the silent fallback `return 1` of the source. -/
def selectTaskTypeAux : List (Nat × ℚ) → ℚ → ℚ → Nat
  | [], _, _ => 1
  | (t, p) :: rest, cum, r =>
    if r ≤ cum + p then t else selectTaskTypeAux rest (cum + p) r

/-- `_select_task_type`, as a function of the sorted distribution items
and the uniform draw `r`. -/
def selectTaskTypeFrom (dist : List (Nat × ℚ)) (r : ℚ) : Nat :=
  selectTaskTypeAux dist 0 r

/-- Per-unit countdown re-derivation of the animation walk:
`max(0, init - t) if init > 0 else 0`. -/
def animNewCd (init t : Nat) : Nat :=
  if 0 < init then init - t else 0

/-- One iteration of the per-unit state update of
`_create_countdown_animation_frames`: re-derive both countdowns at time
`t`, detect the positive-to-zero edges against the previous values, and
apply the switch branches (tie branch first, then the single-light
branches). -/
def animUpdate (a0 b0 t prevA prevB : Nat) (cur : Scene) : Scene :=
  let newA := animNewCd a0 t
  let newB := animNewCd b0 t
  if (0 < prevA ∧ newA = 0) ∧ (0 < prevB ∧ newB = 0) then
    if cur.light_a_state = red then ⟨green, newA, red, 0⟩
    else if cur.light_b_state = green then ⟨green, 0, red, newB⟩
    else ⟨cur.light_a_state, newA, cur.light_b_state, newB⟩
  else if (0 < prevA ∧ newA = 0) ∧ cur.light_a_state = red then
    ⟨green, newA, red, 0⟩
  else if (0 < prevB ∧ newB = 0) ∧ cur.light_b_state = green then
    ⟨green, 0, red, newB⟩
  else ⟨cur.light_a_state, newA, cur.light_b_state, newB⟩

/-- The `while time_elapsed <= total_time` walk of
`_create_countdown_animation_frames`, emitting the per-unit scenes
(`frames_per_countdown` copies each).  The walk stops when the updated
state equals the target final scene, or silently when the safety bound
`time_elapsed > 30` is hit.  `t` advances by one per iteration, so a fuel
of `total + 1` computes the exact loop result. -/
def animWalk (a0 b0 : Nat) (finalS : Scene) (k total : Nat) :
    Nat → Nat → Nat → Nat → Scene → List Scene
  | 0, _, _, _, _ => []
  | fuel+1, t, prevA, prevB, cur =>
    if t ≤ total then
      let next := animUpdate a0 b0 t prevA prevB cur
      List.replicate k next ++
        (if next = finalS then []
         else if 30 < t + 1 then []
         else animWalk a0 b0 finalS k total fuel (t+1)
                cur.light_a_countdown cur.light_b_countdown next)
    else []

/-- The Python slice `frames[:-k]` (empty when `k = 0`). -/
def pySliceNeg (l : List Scene) (k : Nat) : List Scene :=
  if k = 0 then [] else l.take (l.length - k)

/-- The tail-duplicate removal of `_create_countdown_animation_frames`:
drop the last `k` frames when more than `hold + k` frames were
collected. -/
def dropTailPy (frames : List Scene) (hold k : Nat) : List Scene :=
  if hold + k < frames.length then pySliceNeg frames k else frames

/-- `_create_countdown_animation_frames`.  Frames are represented by the
scene they render: the renderer is a pure function of the scene, so two
frames are byte-identical exactly when the rendered scenes coincide. -/
def createCountdownAnimationFrames (task finalS : Scene)
    (hold_frames frames_per_countdown : Nat) : List Scene :=
  if max task.light_a_countdown task.light_b_countdown = 0 then
    List.replicate hold_frames task ++ List.replicate hold_frames finalS
  else
    dropTailPy
      (List.replicate hold_frames task ++
        animWalk task.light_a_countdown task.light_b_countdown finalS
          frames_per_countdown
          (max task.light_a_countdown task.light_b_countdown + 1)
          (max task.light_a_countdown task.light_b_countdown + 2)
          0 task.light_a_countdown task.light_b_countdown task)
      hold_frames frames_per_countdown
    ++ List.replicate hold_frames finalS

/-! ## Helper lemmas about the simulation loop -/

/-- The step selection is zero exactly when neither light is counting. -/
lemma chunkSteps_eq_zero (x y : Nat) : chunkSteps x y = 0 ↔ x = 0 ∧ y = 0 := by
  unfold chunkSteps
  split_ifs with h1 h2 h3 <;> omega

/-- Since inactive countdowns are already zero, the guarded decrement
equals truncated subtraction on both countdowns. -/
lemma decrBoth_mk (sa : LState) (a : Nat) (sb : LState) (b : Nat) (steps : Nat) :
    decrBoth ⟨sa, a, sb, b⟩ steps = ⟨sa, a - steps, sb, b - steps⟩ := by
  unfold decrBoth
  rcases Nat.eq_zero_or_pos a with h1 | h1 <;>
    rcases Nat.eq_zero_or_pos b with h2 | h2 <;>
      simp [h1, h2]

/-- `flipCheck` written out on an explicit scene. -/
lemma flipCheck_mk (sa : LState) (a : Nat) (sb : LState) (b : Nat) :
    flipCheck ⟨sa, a, sb, b⟩ =
      if a = 0 ∧ sa = red then ⟨green, a, red, if 0 < b then 0 else b⟩
      else if b = 0 ∧ sb = green then ⟨green, if 0 < a then 0 else a, red, b⟩
      else ⟨sa, a, sb, b⟩ := rfl

/-- One unfolding of the simulation loop on an explicit scene. -/
lemma simLoop_succ_mk (n rem : Nat) (sa : LState) (a : Nat) (sb : LState) (b : Nat) :
    simLoop (n+1) ⟨sa, a, sb, b⟩ rem =
      if rem = 0 then ⟨sa, a, sb, b⟩
      else if chunkSteps a b = 0 then ⟨sa, a, sb, b⟩
      else
        simLoop n (flipCheck (decrBoth ⟨sa, a, sb, b⟩ (min (chunkSteps a b) rem)))
          (rem - min (chunkSteps a b) rem) := rfl

/-- Neither switch branch fires while light A is green and light B red. -/
lemma flipCheck_gr (x y : Nat) :
    flipCheck ⟨green, x, red, y⟩ = ⟨green, x, red, y⟩ := by
  simp [flipCheck]

/-- The loop returns its input untouched when the budget is zero. -/
lemma simLoop_zero_rem (fuel : Nat) (s : Scene) : simLoop fuel s 0 = s := by
  cases fuel <;> simp [simLoop]

/-- A scene with both countdowns at zero is a fixed point of the loop. -/
lemma simLoop_steady (fuel rem : Nat) (s1 s2 : LState) :
    simLoop fuel ⟨s1, 0, s2, 0⟩ rem = ⟨s1, 0, s2, 0⟩ := by
  cases fuel <;> simp [simLoop, chunkSteps]

/-- With light A green and light B red no switch branch ever fires: the
loop is a pure simultaneous decrement of the active countdowns. -/
lemma simLoop_gr (fuel : Nat) : ∀ (rem x y : Nat), rem ≤ fuel →
    simLoop fuel ⟨green, x, red, y⟩ rem = ⟨green, x - rem, red, y - rem⟩ := by
  induction fuel with
  | zero =>
    intro rem x y hle
    have h0 : rem = 0 := Nat.le_zero.mp hle
    subst h0
    simp [simLoop]
  | succ n ih =>
    intro rem x y hle
    by_cases hrem : rem = 0
    · subst hrem; simp [simLoop]
    · by_cases hc : chunkSteps x y = 0
      · obtain ⟨hx, hy⟩ := (chunkSteps_eq_zero x y).mp hc
        subst hx; subst hy
        simp [simLoop_steady]
      · have hcpos : 0 < chunkSteps x y := Nat.pos_of_ne_zero hc
        have hrpos : 0 < rem := Nat.pos_of_ne_zero hrem
        rw [simLoop_succ_mk, if_neg hrem, if_neg hc, decrBoth_mk, flipCheck_gr]
        rw [ih (rem - min (chunkSteps x y) rem) _ _ (by omega)]
        simp only [Scene.mk.injEq, true_and]
        exact ⟨by omega, by omega⟩

/-- With light A red and light B green, both counting, and an elapsed
budget strictly below the first expiry, the loop is a pure decrement
(no switch fires). -/
lemma simLoop_rg_small (fuel rem x y : Nat) (hle : rem ≤ fuel)
    (hx : 0 < x) (hy : 0 < y) (hrem : rem < min x y) :
    simLoop fuel ⟨red, x, green, y⟩ rem = ⟨red, x - rem, green, y - rem⟩ := by
  by_cases h0 : rem = 0
  · subst h0; simp [simLoop_zero_rem]
  · obtain ⟨n, rfl⟩ : ∃ n, fuel = n + 1 := by
      cases fuel
      · omega
      · exact ⟨_, rfl⟩
    have hc : chunkSteps x y = min x y := by simp [chunkSteps, hx, hy]
    have hcne : ¬ chunkSteps x y = 0 := by omega
    rw [simLoop_succ_mk, if_neg h0, if_neg hcne, decrBoth_mk]
    have hmin : min (chunkSteps x y) rem = rem := by omega
    rw [hmin, flipCheck_mk]
    rw [if_neg (by intro hand; omega : ¬ (x - rem = 0 ∧ (red : LState) = red))]
    rw [if_neg (by intro hand; omega : ¬ (y - rem = 0 ∧ (green : LState) = green))]
    simp [simLoop_zero_rem]

/-- With light A red and counting, light B green and inactive, any
positive elapsed budget drives the scene to the steady scene: either A
reaches zero and the A-red switch fires, or the B-green-at-zero check
fires and cancels the rest of A's countdown. -/
lemma simLoop_rg_a_only (fuel rem x : Nat) (hx : 0 < x)
    (hrem : 1 ≤ rem) (hle : rem ≤ fuel) :
    simLoop fuel ⟨red, x, green, 0⟩ rem = steadyScene := by
  obtain ⟨n, rfl⟩ : ∃ n, fuel = n + 1 := by
    cases fuel
    · omega
    · exact ⟨_, rfl⟩
  have hc : chunkSteps x 0 = x := by simp [chunkSteps, hx]
  have hcne : ¬ chunkSteps x 0 = 0 := by omega
  rw [simLoop_succ_mk, if_neg (by omega : ¬ rem = 0), if_neg hcne, decrBoth_mk]
  have h0c : (0 : Nat) - min (chunkSteps x 0) rem = 0 := by omega
  rw [h0c, flipCheck_mk]
  by_cases hxz : x - min (chunkSteps x 0) rem = 0
  · rw [if_pos ⟨hxz, rfl⟩, hxz]
    have hb : (if 0 < (0 : Nat) then (0 : Nat) else 0) = 0 := by simp
    rw [hb]
    exact simLoop_steady n _ green red
  · rw [if_neg (fun hand => hxz hand.1), if_pos ⟨rfl, rfl⟩]
    have ha : (if 0 < x - min (chunkSteps x 0) rem then 0
               else x - min (chunkSteps x 0) rem) = 0 := by
      split <;> omega
    rw [ha]
    exact simLoop_steady n _ green red

/-- With light A red and inactive, light B green and counting, any
positive elapsed budget triggers the A-red-at-zero check after the first
chunk and drives the scene to the steady scene. -/
lemma simLoop_rg_a_zero (fuel rem y : Nat) (hy : 0 < y)
    (hrem : 1 ≤ rem) (hle : rem ≤ fuel) :
    simLoop fuel ⟨red, 0, green, y⟩ rem = steadyScene := by
  obtain ⟨n, rfl⟩ : ∃ n, fuel = n + 1 := by
    cases fuel
    · omega
    · exact ⟨_, rfl⟩
  have hc : chunkSteps 0 y = y := by simp [chunkSteps, hy]
  have hcne : ¬ chunkSteps 0 y = 0 := by omega
  rw [simLoop_succ_mk, if_neg (by omega : ¬ rem = 0), if_neg hcne, decrBoth_mk]
  have h0c : (0 : Nat) - min (chunkSteps 0 y) rem = 0 := by omega
  rw [h0c, flipCheck_mk, if_pos ⟨rfl, rfl⟩]
  have hb : (if 0 < y - min (chunkSteps 0 y) rem then 0
             else y - min (chunkSteps 0 y) rem) = 0 := by
    split <;> omega
  rw [hb]
  exact simLoop_steady n _ green red

/-- With light A red and light B green, both counting, and an elapsed
budget reaching the first expiry, the first chunk ends in a switch (the
A-red branch on a tie or when A expires first, the B-green branch when B
expires first) and the loop reaches the steady scene. -/
lemma simLoop_rg_flip (fuel rem x y : Nat) (hx : 0 < x) (hy : 0 < y)
    (hrem : min x y ≤ rem) (hle : rem ≤ fuel) :
    simLoop fuel ⟨red, x, green, y⟩ rem = steadyScene := by
  obtain ⟨n, rfl⟩ : ∃ n, fuel = n + 1 := by
    cases fuel
    · omega
    · exact ⟨_, rfl⟩
  have hc : chunkSteps x y = min x y := by simp [chunkSteps, hx, hy]
  have hcne : ¬ chunkSteps x y = 0 := by omega
  rw [simLoop_succ_mk, if_neg (by omega : ¬ rem = 0), if_neg hcne, decrBoth_mk]
  have hmin : min (chunkSteps x y) rem = min x y := by omega
  rw [hmin, flipCheck_mk]
  by_cases hxy : x ≤ y
  · have hxz : x - min x y = 0 := by omega
    rw [if_pos ⟨hxz, rfl⟩, hxz]
    have hb : (if 0 < y - min x y then 0 else y - min x y) = 0 := by
      split <;> omega
    rw [hb]
    exact simLoop_steady n _ green red
  · have hxz : ¬ (x - min x y = 0 ∧ (red : LState) = red) := by
      intro hand; omega
    rw [if_neg hxz, if_pos ⟨by omega, rfl⟩]
    have ha : (if 0 < x - min x y then 0 else x - min x y) = 0 := by
      split <;> omega
    have hb : y - min x y = 0 := by omega
    rw [ha, hb]
    exact simLoop_steady n _ green red


/-- The switch check maps any switch to light A green, light B red, so it
preserves the intersection invariant. -/
lemma flipCheck_invariant (s : Scene)
    (h : s.light_a_state ≠ s.light_b_state) :
    (flipCheck s).light_a_state ≠ (flipCheck s).light_b_state := by
  rcases s with ⟨sa, a, sb, b⟩
  rw [flipCheck_mk]
  by_cases h1 : a = 0 ∧ sa = red
  · rw [if_pos h1]; simp
  · rw [if_neg h1]
    by_cases h2 : b = 0 ∧ sb = green
    · rw [if_pos h2]; simp
    · rw [if_neg h2]; exact h

/-- The simulation loop preserves the intersection invariant. -/
lemma simLoop_invariant (fuel : Nat) : ∀ (s : Scene) (rem : Nat),
    s.light_a_state ≠ s.light_b_state →
    (simLoop fuel s rem).light_a_state ≠ (simLoop fuel s rem).light_b_state := by
  induction fuel with
  | zero => intro s rem h; simpa [simLoop] using h
  | succ n ih =>
    intro s rem h
    rcases s with ⟨sa, a, sb, b⟩
    rw [simLoop_succ_mk]
    by_cases h0 : rem = 0
    · rw [if_pos h0]; exact h
    · rw [if_neg h0]
      by_cases hc : chunkSteps a b = 0
      · rw [if_pos hc]; exact h
      · rw [if_neg hc, decrBoth_mk]
        exact ih _ _ (flipCheck_invariant _ h)

/-- A switch that changes the scene always produces the steady scene:
the expiring light's countdown is zero by the branch condition and the
sibling's countdown is forced to zero. -/
lemma flipCheck_changed (s : Scene) (h : flipCheck s ≠ s) :
    flipCheck s = steadyScene := by
  rcases s with ⟨sa, a, sb, b⟩
  rw [flipCheck_mk] at h ⊢
  by_cases h1 : a = 0 ∧ sa = red
  · rw [if_pos h1] at h ⊢
    obtain ⟨ha, hsa⟩ := h1
    have hb : (if 0 < b then 0 else b) = 0 := by split <;> omega
    rw [ha, hb]
    rfl
  · rw [if_neg h1] at h ⊢
    by_cases h2 : b = 0 ∧ sb = green
    · rw [if_pos h2] at h ⊢
      obtain ⟨hb, hsb⟩ := h2
      have ha : (if 0 < a then 0 else a) = 0 := by split <;> omega
      rw [hb, ha]
      rfl
    · rw [if_neg h2] at h
      exact absurd rfl h

/-! ## Claims about the transition simulator and the sampler -/

/-- Claim C1: every initial scene the sampler can produce (any of the
four task types) has one RED and one GREEN light, and the simulator
preserves this invariant on every input that satisfies it, for any
elapsed argument (explicit or auto-selected). -/
theorem claim_invariant_preservation :
    (∀ (taskType : Nat) (td : TaskData), validTaskData taskType td →
      td.scene.light_a_state ≠ td.scene.light_b_state) ∧
    (∀ (s : Scene) (e : Option Nat), s.light_a_state ≠ s.light_b_state →
      (calculateFinalState s e).light_a_state ≠
        (calculateFinalState s e).light_b_state) := by
  constructor
  · intro taskType td h
    unfold validTaskData at h
    split_ifs at h
    · rw [h.1, h.2.1]; simp
    · rw [h.1, h.2.1]; simp
    · rw [h.1, h.2.1]; simp
    · rw [h.1, h.2.1]; simp
  · intro s e h
    cases e with
    | none => exact simLoop_invariant _ _ _ h
    | some t => exact simLoop_invariant _ _ _ h

/-- Witness for C1 at a concrete sampler output and a concrete
simulator call. -/
theorem claim_invariant_preservation_witness :
    (⟨⟨red, 2, green, 0⟩, none⟩ : TaskData).scene.light_a_state ≠
      (⟨⟨red, 2, green, 0⟩, none⟩ : TaskData).scene.light_b_state ∧
    (calculateFinalState ⟨red, 5, green, 3⟩ (some 2)).light_a_state ≠
      (calculateFinalState ⟨red, 5, green, 3⟩ (some 2)).light_b_state :=
  ⟨claim_invariant_preservation.1 1 ⟨⟨red, 2, green, 0⟩, none⟩ (by decide),
   claim_invariant_preservation.2 ⟨red, 5, green, 3⟩ (some 2) (by decide)⟩

/-- Claim C2 counterexample: a scene in which light A is the GREEN
counting light and light B is RED.  The claimed symmetric rule would
flip A to RED and B to GREEN, yielding light A RED 0 / light B GREEN 0,
but the simulator performs no switch at all: only the
light-B-green-at-zero check exists, so the result keeps A GREEN and B
RED. -/
theorem claim_green_zero_symmetric_cex :
    calculateFinalState ⟨green, 5, red, 0⟩ none = ⟨green, 0, red, 0⟩ ∧
    calculateFinalState ⟨green, 5, red, 0⟩ none ≠ ⟨red, 0, green, 0⟩ := by
  decide

/-- Claim C2 (amended): the GREEN-reaching-zero switch exists only for
light B.  When light B is the GREEN counting light and reaches zero
first (strictly smaller countdown), the simulator flips B to RED, flips
A to GREEN and forces A's remaining countdown to zero; when light A is
the GREEN counting light (light B RED), no switch ever fires and the
countdowns simply decrement. -/
theorem claim_green_zero_symmetric_amended :
    (∀ x y e : Nat, 0 < y → y < x → y ≤ e →
      calculateFinalState ⟨red, x, green, y⟩ (some e) = steadyScene) ∧
    (∀ x e : Nat,
      calculateFinalState ⟨green, x, red, 0⟩ (some e) = ⟨green, x - e, red, 0⟩) := by
  constructor
  · intro x y e hy hxy he
    simp only [calculateFinalState]
    exact simLoop_rg_flip e e x y (by omega) hy (by omega) (le_refl e)
  · intro x e
    simp only [calculateFinalState]
    have h := simLoop_gr e e x 0 (le_refl e)
    simpa using h

/-- Witness for the amended C2 at concrete inputs. -/
theorem claim_green_zero_symmetric_amended_witness :
    calculateFinalState ⟨red, 5, green, 2⟩ (some 3) = steadyScene ∧
    calculateFinalState ⟨green, 7, red, 0⟩ (some 4) = ⟨green, 3, red, 0⟩ :=
  ⟨claim_green_zero_symmetric_amended.1 5 2 3 (by decide) (by decide) (by decide),
   claim_green_zero_symmetric_amended.2 7 4⟩

/-- Claim C3: with `elapsed` omitted the simulator auto-selects the
horizon (smaller countdown if both count, the single active countdown if
one counts, 0 and no-op if none), and on light A RED 5 / light B GREEN 0
the horizon is 5 and the result is light A GREEN 0 / light B RED 0. -/
theorem claim_auto_horizon :
    (∀ s : Scene,
      (0 < s.light_a_countdown → 0 < s.light_b_countdown →
        autoHorizon s = min s.light_a_countdown s.light_b_countdown) ∧
      (0 < s.light_a_countdown → s.light_b_countdown = 0 →
        autoHorizon s = s.light_a_countdown) ∧
      (s.light_a_countdown = 0 → 0 < s.light_b_countdown →
        autoHorizon s = s.light_b_countdown) ∧
      (s.light_a_countdown = 0 → s.light_b_countdown = 0 →
        autoHorizon s = 0 ∧ calculateFinalState s none = s)) ∧
    autoHorizon ⟨red, 5, green, 0⟩ = 5 ∧
    calculateFinalState ⟨red, 5, green, 0⟩ none = ⟨green, 0, red, 0⟩ := by
  refine ⟨fun s => ⟨?_, ?_, ?_, ?_⟩, by decide, by decide⟩
  · intro ha hb; simp [autoHorizon, ha, hb]
  · intro ha hb; simp [autoHorizon, ha, hb]
  · intro ha hb; simp [autoHorizon, ha, hb]
  · intro ha hb
    have hh : autoHorizon s = 0 := by simp [autoHorizon, ha, hb]
    refine ⟨hh, ?_⟩
    simp only [calculateFinalState, hh]
    exact simLoop_zero_rem 0 s

/-- Witness for C3: the auto-horizon cases at concrete scenes. -/
theorem claim_auto_horizon_witness :
    autoHorizon ⟨red, 9, green, 4⟩ = min 9 4 ∧
    autoHorizon ⟨red, 0, green, 6⟩ = 6 ∧
    (autoHorizon ⟨red, 0, green, 0⟩ = 0 ∧
      calculateFinalState ⟨red, 0, green, 0⟩ none = ⟨red, 0, green, 0⟩) :=
  ⟨(claim_auto_horizon.1 ⟨red, 9, green, 4⟩).1 (by decide) (by decide),
   (claim_auto_horizon.1 ⟨red, 0, green, 6⟩).2.2.1 (by decide) (by decide),
   (claim_auto_horizon.1 ⟨red, 0, green, 0⟩).2.2.2 (by decide) (by decide)⟩

/-- Claim C4 counterexample: a scene in which light B is the RED light
whose countdown reaches exactly zero (light A GREEN).  The claimed rule
would flip B to GREEN and A to RED, yielding light A RED 0 / light B
GREEN 0, but the simulator has no RED-at-zero check for light B and
performs no switch. -/
theorem claim_red_zero_switch_cex :
    calculateFinalState ⟨green, 0, red, 5⟩ none = ⟨green, 0, red, 0⟩ ∧
    calculateFinalState ⟨green, 0, red, 5⟩ none ≠ ⟨red, 0, green, 0⟩ := by
  decide

/-- Claim C4 (amended): the RED-reaching-zero switch exists only for
light A.  When light A is RED and its countdown reaches zero (first or
on a tie), the simulator flips A to GREEN, flips B to RED and forces
B's active countdown to zero; the concrete scenario (A RED 10, B GREEN
4, elapsed unset, horizon 4, B expires first, A's countdown
force-canceled) holds as stated. -/
theorem claim_red_zero_switch_amended :
    (∀ x y e : Nat, 0 < x → (y = 0 ∨ x ≤ y) → x ≤ e →
      calculateFinalState ⟨red, x, green, y⟩ (some e) = steadyScene) ∧
    autoHorizon ⟨red, 10, green, 4⟩ = 4 ∧
    calculateFinalState ⟨red, 10, green, 4⟩ none = steadyScene := by
  refine ⟨?_, by decide, by decide⟩
  intro x y e hx hy he
  simp only [calculateFinalState]
  rcases hy with hy | hy
  · subst hy
    exact simLoop_rg_a_only e e x hx (by omega) (le_refl e)
  · exact simLoop_rg_flip e e x y hx (by omega) (by omega) (le_refl e)

/-- Witness for the amended C4 at concrete inputs (both shapes of the
side condition). -/
theorem claim_red_zero_switch_amended_witness :
    calculateFinalState ⟨red, 3, green, 0⟩ (some 3) = steadyScene ∧
    calculateFinalState ⟨red, 4, green, 6⟩ (some 5) = steadyScene :=
  ⟨claim_red_zero_switch_amended.1 3 0 3 (by decide) (Or.inl rfl) (by decide),
   claim_red_zero_switch_amended.1 4 6 5 (by decide) (Or.inr (by decide)) (by decide)⟩

/-- Claim C5: on a tie (light A RED, light B GREEN, equal countdowns N,
elapsed N) the simulator deterministically resolves through the
RED-checked-first branch, giving A GREEN 0 / B RED 0; the animation
walk's per-unit update applies the same tie-break (whenever both
countdowns transition from positive to zero in the same unit with A RED
and B GREEN, the update yields A GREEN 0 / B RED 0), and the spec's
concrete N = 6 scenario holds. -/
theorem claim_tie_break :
    (∀ N : Nat, 0 < N →
      calculateFinalState ⟨red, N, green, N⟩ (some N) = steadyScene) ∧
    (∀ a0 b0 t prevA prevB x y : Nat, 0 < prevA → 0 < prevB →
      a0 ≤ t → b0 ≤ t →
      animUpdate a0 b0 t prevA prevB ⟨red, x, green, y⟩ = steadyScene) ∧
    calculateFinalState ⟨red, 6, green, 6⟩ (some 6) = steadyScene := by
  refine ⟨?_, ?_, by decide⟩
  · intro N hN
    simp only [calculateFinalState]
    exact simLoop_rg_flip N N N N hN hN (by omega) (le_refl N)
  · intro a0 b0 t prevA prevB x y hpa hpb ha hb
    have hA : animNewCd a0 t = 0 := by unfold animNewCd; split <;> omega
    have hB : animNewCd b0 t = 0 := by unfold animNewCd; split <;> omega
    unfold animUpdate
    rw [hA, hB]
    rw [if_pos ⟨⟨hpa, rfl⟩, ⟨hpb, rfl⟩⟩]
    rw [if_pos rfl]
    rfl

/-- Witness for C5 at concrete tie inputs. -/
theorem claim_tie_break_witness :
    calculateFinalState ⟨red, 4, green, 4⟩ (some 4) = steadyScene ∧
    animUpdate 4 4 4 1 1 ⟨red, 1, green, 1⟩ = steadyScene :=
  ⟨claim_tie_break.1 4 (by decide),
   claim_tie_break.2.1 4 4 4 1 1 1 1 (by decide) (by decide) (by decide) (by decide)⟩

/-- Claim C7: every sampler output (all four task types, default
configuration) is driven by the simulator to the constant scene light A
GREEN 0 / light B RED 0; moreover any switch that changes the scene
forces both countdowns to zero (so the scene becomes the steady scene)
and the steady scene is a fixed point of the loop, hence at most one
switch can happen per call. -/
theorem claim_constant_final_state :
    (∀ (taskType : Nat) (td : TaskData), validTaskData taskType td →
      calculateFinalState td.scene td.time_elapsed = steadyScene) ∧
    (∀ s : Scene, flipCheck s ≠ s → flipCheck s = steadyScene) ∧
    (∀ fuel rem : Nat, simLoop fuel steadyScene rem = steadyScene) := by
  refine ⟨?_, flipCheck_changed, fun fuel rem => simLoop_steady fuel rem green red⟩
  intro taskType td h
  rcases td with ⟨⟨sa, ca, sb, cb⟩, te⟩
  unfold validTaskData at h
  dsimp only at h
  split_ifs at h
  · obtain ⟨ha, hb, hb0, hlo, hhi, hte⟩ := h
    subst ha; subst hb; subst hb0; subst hte
    simp only [calculateFinalState]
    have hca : 0 < ca := by omega
    have hh : autoHorizon ⟨red, ca, green, 0⟩ = ca := by
      simp [autoHorizon, hca]
    rw [hh]
    exact simLoop_rg_a_only ca ca ca hca (by omega) (le_refl ca)
  · obtain ⟨ha, hb, hb0, hlo, hhi, hte⟩ := h
    subst ha; subst hb; subst hb0; subst hte
    simp only [calculateFinalState]
    have hca : 0 < ca := by omega
    have hh : autoHorizon ⟨red, ca, green, 0⟩ = ca := by
      simp [autoHorizon, hca]
    rw [hh]
    exact simLoop_rg_a_only ca ca ca hca (by omega) (le_refl ca)
  · obtain ⟨ha, hb, halo, hahi, hblo, hbhi, hte⟩ := h
    subst ha; subst hb; subst hte
    simp only [calculateFinalState]
    have hca : 0 < ca := by omega
    have hcb : 0 < cb := by omega
    have hh : autoHorizon ⟨red, ca, green, cb⟩ = min ca cb := by
      simp [autoHorizon, hca, hcb]
    rw [hh]
    exact simLoop_rg_flip _ _ ca cb hca hcb (le_refl _) (le_refl _)
  · obtain ⟨ha, hb, halo, hahi, hblo, hbhi, hrest⟩ := h
    subst ha; subst hb
    cases te with
    | none => exact absurd hrest (by simp [elapsedInRange])
    | some e =>
      obtain ⟨hel, heu⟩ := hrest
      simp only [calculateFinalState]
      have hca : 0 < ca := by omega
      have hcb : 0 < cb := by omega
      exact simLoop_rg_flip e e ca cb hca hcb (by omega) (le_refl e)

/-- Witness for C7 at one concrete sampler output per task type. -/
theorem claim_constant_final_state_witness :
    calculateFinalState ⟨red, 2, green, 0⟩ none = steadyScene ∧
    calculateFinalState ⟨red, 20, green, 0⟩ none = steadyScene ∧
    calculateFinalState ⟨red, 8, green, 3⟩ none = steadyScene ∧
    calculateFinalState ⟨red, 5, green, 3⟩ (some 7) = steadyScene :=
  ⟨claim_constant_final_state.1 1 ⟨⟨red, 2, green, 0⟩, none⟩ (by decide),
   claim_constant_final_state.1 2 ⟨⟨red, 20, green, 0⟩, none⟩ (by decide),
   claim_constant_final_state.1 3 ⟨⟨red, 8, green, 3⟩, none⟩ (by decide),
   claim_constant_final_state.1 4 ⟨⟨red, 5, green, 3⟩, some 7⟩ (by decide)⟩

/-- Claim C10: for an invariant-satisfying scene the total countdown sum
of the simulated result is non-increasing in the elapsed argument. -/
theorem claim_monotone_countdown (s : Scene) (e₁ e₂ : Nat)
    (hinv : s.light_a_state ≠ s.light_b_state) (h : e₁ ≤ e₂) :
    sumCd (calculateFinalState s (some e₂)) ≤
      sumCd (calculateFinalState s (some e₁)) := by
  rcases s with ⟨sa, x, sb, y⟩
  simp only [calculateFinalState]
  cases sa <;> cases sb
  · exact absurd rfl hinv
  · -- light A red, light B green
    rcases Nat.eq_zero_or_pos x with hx | hx <;>
      rcases Nat.eq_zero_or_pos y with hy | hy
    · subst hx; subst hy
      rw [simLoop_steady, simLoop_steady]
    · subst hx
      by_cases h2 : e₂ = 0
      · have h1 : e₁ = 0 := by omega
        subst h2; subst h1
        exact le_refl _
      · rw [simLoop_rg_a_zero e₂ e₂ y hy (by omega) (le_refl e₂)]
        simp [sumCd, steadyScene]
    · subst hy
      by_cases h2 : e₂ = 0
      · have h1 : e₁ = 0 := by omega
        subst h2; subst h1
        exact le_refl _
      · rw [simLoop_rg_a_only e₂ e₂ x hx (by omega) (le_refl e₂)]
        simp [sumCd, steadyScene]
    · by_cases hsmall : e₂ < min x y
      · rw [simLoop_rg_small e₂ e₂ x y (le_refl e₂) hx hy hsmall,
            simLoop_rg_small e₁ e₁ x y (le_refl e₁) hx hy (by omega)]
        simp only [sumCd]
        omega
      · rw [simLoop_rg_flip e₂ e₂ x y hx hy (by omega) (le_refl e₂)]
        simp [sumCd, steadyScene]
  · -- light A green, light B red: pure decrement
    rw [simLoop_gr e₂ e₂ x y (le_refl e₂), simLoop_gr e₁ e₁ x y (le_refl e₁)]
    simp only [sumCd]
    omega
  · exact absurd rfl hinv

/-- Witness for C10 at a concrete scene and elapsed pair. -/
theorem claim_monotone_countdown_witness :
    sumCd (calculateFinalState ⟨red, 5, green, 3⟩ (some 2)) ≤
      sumCd (calculateFinalState ⟨red, 5, green, 3⟩ (some 1)) :=
  claim_monotone_countdown ⟨red, 5, green, 3⟩ 1 2 (by decide) (by decide)


/-! ## Claims about task-type selection -/

/-- When every weight is non-negative and the draw exceeds the total
weight, the cumulative scan exhausts the distribution and returns the
fallback value 1 without any error. -/
lemma selectTaskTypeAux_fallback : ∀ (dist : List (Nat × ℚ)) (cum r : ℚ),
    (∀ x ∈ dist, 0 ≤ x.2) → cum + (dist.map Prod.snd).sum < r →
    selectTaskTypeAux dist cum r = 1 := by
  intro dist
  induction dist with
  | nil => intro cum r hpos hsum; rfl
  | cons hd tl ih =>
    intro cum r hpos hsum
    obtain ⟨t, p⟩ := hd
    have htl : 0 ≤ (tl.map Prod.snd).sum := by
      apply List.sum_nonneg
      intro q hq
      obtain ⟨x, hx, rfl⟩ := List.mem_map.mp hq
      exact hpos x (List.mem_cons_of_mem _ hx)
    simp only [List.map_cons, List.sum_cons] at hsum
    simp only [selectTaskTypeAux]
    rw [if_neg (by linarith : ¬ r ≤ cum + p)]
    exact ih (cum + p) r (fun x hx => hpos x (List.mem_cons_of_mem _ hx))
      (by linarith)

/-- Claim C9 counterexample: `_select_task_type` performs no validation.
On a distribution summing to 3/10 (far from 1) a draw of 1/2 falls past
the whole cumulative scan and is quietly mapped to Type 1 by the
fallback, and the same happens for a two-entry distribution summing to
6/10 under a draw of 9/10 — no error is surfaced before or during
sampling. -/
theorem claim_distribution_cex :
    selectTaskTypeFrom [(2, 3/10)] (1/2) = 1 ∧
    selectTaskTypeFrom [(1, 3/10), (2, 3/10)] (9/10) = 1 := by
  constructor <;> norm_num [selectTaskTypeFrom, selectTaskTypeAux]

/-- Claim C9 (amended): the selector is total and never fails: whenever
the weights are non-negative and the uniform draw exceeds their sum (in
particular for every distribution summing to less than 1 and a
sufficiently large draw), the selection silently falls back to Type 1
instead of surfacing a configuration error. -/
theorem claim_distribution_amended (dist : List (Nat × ℚ)) (r : ℚ)
    (hpos : ∀ x ∈ dist, 0 ≤ x.2) (hsum : (dist.map Prod.snd).sum < r) :
    selectTaskTypeFrom dist r = 1 := by
  unfold selectTaskTypeFrom
  exact selectTaskTypeAux_fallback dist 0 r hpos (by linarith)

/-- Witness for the amended C9 at a concrete invalid distribution. -/
theorem claim_distribution_amended_witness :
    selectTaskTypeFrom [(3, 2/10), (4, 3/10)] (4/5) = 1 :=
  claim_distribution_amended [(3, 2/10), (4, 3/10)] (4/5)
    (by
      intro x hx
      simp only [List.mem_cons, List.mem_singleton] at hx
      rcases hx with hx | hx
      · rw [hx]; norm_num
      · rcases hx with hx | hx
        · rw [hx]; norm_num
        · exact absurd hx (by simp))
    (by norm_num)


/-! ## Claims about the animation sequencer safety bound -/

/-- Claim C8 counterexample: starting from light A RED 40 / light B
GREEN 0 with the simulator target A GREEN 0 / B RED 0 (the genuine
`advance` result for this scene) and the default frame parameters, the
per-unit walk hits the safety bound at 30 elapsed units long before the
running state can match the target, and the sequencer nevertheless
returns a perfectly normal-looking frame list: the initial hold, thirty
interpolation steps with the tail-drop applied, and the final hold
appended — no error is raised or logged. -/
theorem claim_safety_bound_cex :
    calculateFinalState ⟨red, 40, green, 0⟩ none = steadyScene ∧
    createCountdownAnimationFrames ⟨red, 40, green, 0⟩ steadyScene 5 2 =
      List.replicate 5 (⟨red, 40, green, 0⟩ : Scene) ++
      ((List.range 30).flatMap fun t =>
        List.replicate 2 (⟨red, 40 - t, green, 0⟩ : Scene)) ++
      List.replicate 5 steadyScene := by
  decide

/-- Claim C8 (amended): hitting the safety bound is silent.  On the same
input the sequencer returns 70 frames ending in the usual `holdCount`
copies of the final render, even though the walk never reached the final
scene (the final scene does not occur anywhere before the final hold). -/
theorem claim_safety_bound_amended :
    (createCountdownAnimationFrames ⟨red, 40, green, 0⟩ steadyScene 5 2).length
      = 70 ∧
    (createCountdownAnimationFrames ⟨red, 40, green, 0⟩ steadyScene 5 2).drop 65
      = List.replicate 5 steadyScene ∧
    steadyScene ∉
      (createCountdownAnimationFrames ⟨red, 40, green, 0⟩ steadyScene 5 2).take 65 := by
  decide


/-! ## Claims about the animation sequencer boundary guarantee -/

/-- Taking the hold length from a held prefix returns exactly the held
prefix. -/
lemma take_replicate_append (n : Nat) (x : Scene) (l : List Scene) :
    (List.replicate n x ++ l).take n = List.replicate n x := by
  have h := List.take_left (List.replicate n x) l
  rwa [List.length_replicate] at h

/-- Dropping everything up to the final hold returns exactly the final
hold. -/
lemma drop_append_replicate (l : List Scene) (n : Nat) (x : Scene) :
    (l ++ List.replicate n x).drop ((l ++ List.replicate n x).length - n) =
      List.replicate n x := by
  have hlen : (l ++ List.replicate n x).length - n = l.length := by
    simp [List.length_append, List.length_replicate]
  rw [hlen, List.drop_left]

/-- The tail-drop step never disturbs the first `h` frames, and keeps at
least `h` frames when it had at least `h` to begin with. -/
lemma dropTailPy_take (frames : List Scene) (h k : Nat) (hk : 0 < k) :
    (dropTailPy frames h k).take h = frames.take h ∧
    (h ≤ frames.length → h ≤ (dropTailPy frames h k).length) := by
  by_cases hcond : h + k < frames.length
  · unfold dropTailPy pySliceNeg
    rw [if_pos hcond, if_neg (by omega : ¬ k = 0)]
    constructor
    · rw [List.take_take]
      congr 1
      omega
    · intro hx
      rw [List.length_take]
      omega
  · unfold dropTailPy
    rw [if_neg hcond]
    exact ⟨rfl, fun hx => hx⟩

/-- Structure of the non-degenerate sequencer output: whatever the walk
emitted, the initial hold survives the tail-drop as the first `h`
frames, and the final hold is the last `h` frames. -/
lemma boundary_branch (init f : Scene) (h k : Nat) (hk : 0 < k)
    (W : List Scene) :
    (dropTailPy (List.replicate h init ++ W) h k ++
        List.replicate h f).take h = List.replicate h init ∧
    (dropTailPy (List.replicate h init ++ W) h k ++
        List.replicate h f).drop
      ((dropTailPy (List.replicate h init ++ W) h k ++
          List.replicate h f).length - h) = List.replicate h f := by
  obtain ⟨ht, hl⟩ := dropTailPy_take (List.replicate h init ++ W) h k hk
  have hlen : h ≤ (List.replicate h init ++ W).length := by
    simp [List.length_append, List.length_replicate]
  constructor
  · rw [List.take_append_of_le_length (hl hlen), ht, take_replicate_append]
  · exact drop_append_replicate _ h f

/-- Claim C6: for every pair (initial scene, final scene computed by the
simulator) and positive frame parameters, the sequence starts with
exactly `holdCount` frames rendering the initial scene and ends with
exactly `holdCount` frames rendering the final scene; if neither
countdown is active initially, the sequence is exactly the two held
stills, `2 * holdCount` frames in total. -/
theorem claim_sequencer_boundary (init f : Scene) (e : Option Nat)
    (h k : Nat) (hf : f = calculateFinalState init e)
    (hh : 0 < h) (hk : 0 < k) :
    (createCountdownAnimationFrames init f h k).take h =
      List.replicate h init ∧
    (createCountdownAnimationFrames init f h k).drop
        ((createCountdownAnimationFrames init f h k).length - h) =
      List.replicate h f ∧
    (init.light_a_countdown = 0 → init.light_b_countdown = 0 →
      createCountdownAnimationFrames init f h k =
        List.replicate h init ++ List.replicate h f ∧
      (createCountdownAnimationFrames init f h k).length = 2 * h) := by
  by_cases hmax : max init.light_a_countdown init.light_b_countdown = 0
  · have hfr : createCountdownAnimationFrames init f h k =
        List.replicate h init ++ List.replicate h f := by
      unfold createCountdownAnimationFrames
      rw [if_pos hmax]
    refine ⟨?_, ?_, fun _ _ => ⟨hfr, ?_⟩⟩
    · rw [hfr]; exact take_replicate_append h init _
    · rw [hfr]; exact drop_append_replicate _ h f
    · rw [hfr]
      simp only [List.length_append, List.length_replicate]
      omega
  · have hfr : createCountdownAnimationFrames init f h k =
        dropTailPy
          (List.replicate h init ++
            animWalk init.light_a_countdown init.light_b_countdown f k
              (max init.light_a_countdown init.light_b_countdown + 1)
              (max init.light_a_countdown init.light_b_countdown + 2)
              0 init.light_a_countdown init.light_b_countdown init)
          h k
        ++ List.replicate h f := by
      unfold createCountdownAnimationFrames
      rw [if_neg hmax]
    refine ⟨?_, ?_, fun h0a h0b => (hmax (by simp [h0a, h0b])).elim⟩
    · rw [hfr]
      exact (boundary_branch init f h k hk _).1
    · rw [hfr]
      exact (boundary_branch init f h k hk _).2

/-- Witness for C6: a counting initial scene (prefix and suffix
guarantees) and a no-countdown initial scene (exact degeneration to the
two held stills). -/
theorem claim_sequencer_boundary_witness :
    (createCountdownAnimationFrames ⟨red, 2, green, 0⟩
        (calculateFinalState ⟨red, 2, green, 0⟩ none) 2 1).take 2 =
      List.replicate 2 (⟨red, 2, green, 0⟩ : Scene) ∧
    (createCountdownAnimationFrames ⟨red, 2, green, 0⟩
        (calculateFinalState ⟨red, 2, green, 0⟩ none) 2 1).drop
        ((createCountdownAnimationFrames ⟨red, 2, green, 0⟩
            (calculateFinalState ⟨red, 2, green, 0⟩ none) 2 1).length - 2) =
      List.replicate 2 (calculateFinalState ⟨red, 2, green, 0⟩ none) ∧
    createCountdownAnimationFrames ⟨red, 0, green, 0⟩
        (calculateFinalState ⟨red, 0, green, 0⟩ none) 3 1 =
      List.replicate 3 (⟨red, 0, green, 0⟩ : Scene) ++
        List.replicate 3 (calculateFinalState ⟨red, 0, green, 0⟩ none) :=
  ⟨(claim_sequencer_boundary ⟨red, 2, green, 0⟩
      (calculateFinalState ⟨red, 2, green, 0⟩ none) none 2 1 rfl
      (by decide) (by decide)).1,
   (claim_sequencer_boundary ⟨red, 2, green, 0⟩
      (calculateFinalState ⟨red, 2, green, 0⟩ none) none 2 1 rfl
      (by decide) (by decide)).2.1,
   ((claim_sequencer_boundary ⟨red, 0, green, 0⟩
      (calculateFinalState ⟨red, 0, green, 0⟩ none) none 3 1 rfl
      (by decide) (by decide)).2.2 rfl rfl).1⟩

end TrafficLight
